import Mathlib

/-!
# Verification of the safe-bharat-backend request pipeline

Shallow embedding of `src/server.js` (an Express application).  The source
file contains two concatenated revisions of the server; line references in
the doc comments use the concatenated numbering.  Pure route logic is
embedded as Lean functions; external collaborators (the MongoDB store, the
geocoder, the SMS gateway, the third-party middleware libraries) are
modelled as explicit parameters or as effect traces, following the
specification for their interfaces.
-/

namespace SafeBharat

/-- A resource-directory record (`resourceSchema`, src lines 233-239). -/
structure Resource where
  name : String
  kind : String
  address : String
  contact : String
  city : String
  deriving DecidableEq, Repr

/-- A check-in record (`checkinSchema`, src lines 241-245). -/
structure Checkin where
  message : String
  phone : String
  deriving DecidableEq, Repr

/-- A signed bearer token.  Modelled from the spec: the `jsonwebtoken`
library is an external dependency; the signature is modelled by carrying the
signing secret, and `exp` is the absolute expiry time in seconds. -/
structure Token where
  username : String
  exp : Nat
  secret : String
  deriving DecidableEq, Repr

/-- The body of an HTTP response, as the routes of `server.js` produce them
(`res.json(...)` payloads), kept symbolic instead of rendered to JSON. -/
inductive Body where
  | errorMsg (s : String)
  | resources (rs : List Resource)
  | checkin (c : Checkin)
  | token (t : Token)
  | msg (s : String)
  deriving DecidableEq, Repr

/-- An HTTP response: status code and JSON body. -/
structure Response where
  status : Nat
  body : Body
  deriving DecidableEq, Repr

/-- Observable side effects of a request, recorded as a trace: calls to the
external geocoder, queries/writes against the record store, SMS dispatches
and disk writes.  `diskWrite now name` is the write of `${now}-${name}`
performed by the first revision's disk-storage multer. -/
inductive Eff where
  | geocode (query : String)
  | storeFindAll (limit : Nat)
  | storeFindCity (pattern : String) (limit : Nat)
  | storeSaveCheckin (c : Checkin)
  | storeSaveFile (originalName mimetype : String) (size : Nat)
  | smsSend (smsBody dest : String)
  | diskWrite (now : Nat) (originalName : String)
  deriving DecidableEq, Repr

/-! ## Resource Resolver (`GET /api/resources`, src lines 333-349) -/

/-- JavaScript truthiness test used by `if (!city)` on the `city` query
parameter: an absent parameter (`undefined`) and the empty string are both
falsy. -/
def jsBlank : Option String → Bool
  | none => true
  | some s => s = ""

/-- `listIsPrefix pat l` tests whether `pat` is a prefix of `l`. -/
def listIsPrefix : List Char → List Char → Bool
  | [], _ => true
  | _ :: _, [] => false
  | a :: as, b :: bs => a == b && listIsPrefix as bs

/-- `listContainsSub pat hay` tests whether `pat` occurs as a contiguous
sublist of `hay`. -/
def listContainsSub (pat : List Char) : List Char → Bool
  | [] => listIsPrefix pat []
  | h :: t => listIsPrefix pat (h :: t) || listContainsSub pat t

/-- Modelled from the spec: the record store is an external collaborator.
`Resource.find({ city: new RegExp(city, 'i') })` is a case-insensitive
city-field match, which the spec describes as case-insensitive substring
containment; it is modelled as such (exact for patterns free of regex
metacharacters). -/
def cityMatches (resourceCity pat : String) : Bool :=
  listContainsSub (pat.data.map Char.toLower) (resourceCity.data.map Char.toLower)

/-- The `GET /api/resources` handler (src lines 333-349).  `geo q` is the
number of matches the external geocoder returns for query string `q`
(`response.data.length`); `store` is the content of the resource collection
in its natural order.  Returns the response together with the trace of
external effects. -/
def getResources (cityParam : Option String) (geo : String → Nat)
    (store : List Resource) : Response × List Eff :=
  if jsBlank cityParam then
    (⟨200, Body.resources (store.take 100)⟩, [Eff.storeFindAll 100])
  else
    let city := cityParam.getD ""
    let q := city ++ ", India"
    if geo q = 0 then
      (⟨404, Body.errorMsg "City not found"⟩, [Eff.geocode q])
    else
      (⟨200, Body.resources ((store.filter fun r => cityMatches r.city city).take 50)⟩,
        [Eff.geocode q, Eff.storeFindCity city 50])

/-! ## Check-in Notifier (`POST /api/checkins`, src lines 366-382) -/

/-- The `POST /api/checkins` handler body, after the authentication
middleware has passed.  `twilioConfigured` is whether `process.env.TWILIO_SID`
is set (`twilioClient !== null`, src line 274); `saveOk` and `smsOk` are the
outcomes of the store write and of the SMS dispatch.  The whole body sits in
one `try`, so a throwing `save` or a throwing SMS dispatch both land in the
route's catch block, which answers 500 "Server error"; a throwing SMS does
not undo the completed `save`.  Returns the response, the new check-in
collection and the effect trace (each store/SMS attempt is recorded when it
is made). -/
def checkinSubmit (message phone : String) (twilioConfigured saveOk smsOk : Bool)
    (store : List Checkin) : Response × List Checkin × List Eff :=
  if saveOk then
    let c : Checkin := ⟨message, phone⟩
    if twilioConfigured then
      if smsOk then
        (⟨201, Body.checkin c⟩, store ++ [c],
          [Eff.storeSaveCheckin c, Eff.smsSend ("Safe Bharat Check-In: " ++ message) phone])
      else
        (⟨500, Body.errorMsg "Server error"⟩, store ++ [c],
          [Eff.storeSaveCheckin c, Eff.smsSend ("Safe Bharat Check-In: " ++ message) phone])
    else
      (⟨201, Body.checkin c⟩, store ++ [c], [Eff.storeSaveCheckin c])
  else
    (⟨500, Body.errorMsg "Server error"⟩, store, [Eff.storeSaveCheckin ⟨message, phone⟩])

/-! ## Upload Handler (multer configs at src lines 61-67 and 261-271,
`POST /upload` at src lines 385-398) -/

/-- The memory-storage multer `fileFilter` (src lines 264-270): accept any
`image/*` MIME type and `application/pdf`, reject everything else.
(`String.startsWith` is spelled out over the character lists so that it
evaluates by kernel reduction.) -/
def fileFilter (mimetype : String) : Bool :=
  listIsPrefix "image/".data mimetype.data || mimetype == "application/pdf"

/-- `limits.fileSize` of the memory-storage multer (src line 263): 5 MiB. -/
def fileSizeLimit : Nat := 5 * 1024 * 1024

/-- Modelled from the spec: multer is external middleware; a file whose
declared MIME type fails `fileFilter` or whose size exceeds
`limits.fileSize` is rejected by multer before the route handler runs.
This is the acceptance predicate of the memory-storage configuration
(src lines 261-271). -/
def memoryUploadAccepts (mimetype : String) (size : Nat) : Bool :=
  fileFilter mimetype && decide (size ≤ fileSizeLimit)

/-- The first revision's multer configuration (src lines 61-67):
`diskStorage` into `./uploads/` with no `fileFilter` and no `limits` —
every incoming file, of any declared MIME type and any size, is accepted
and written to disk under `${Date.now()}-${file.originalname}` before the
route handler runs.  Returns the acceptance flag and the effect trace. -/
def diskUpload (now : Nat) (originalName mimetype : String) (size : Nat) :
    Bool × List Eff :=
  (true, [Eff.diskWrite now originalName])

/-- The `POST /upload` route (src lines 385-398) behind the memory-storage
multer.  A file rejected by multer never reaches the handler; the error
falls through to the boundary error middleware, which answers a generic 500.
An accepted file's metadata is saved (`File.save`); if that save throws an
exception whose message is `errMessage`, the route's own catch answers
`res.status(500).json({ error: err.message })`. -/
def uploadRoute (originalName mimetype : String) (size : Nat)
    (saveOk : Bool) (errMessage : String) : Response × List Eff :=
  if memoryUploadAccepts mimetype size then
    if saveOk then
      (⟨200, Body.msg "File metadata saved!"⟩,
        [Eff.storeSaveFile originalName mimetype size])
    else
      (⟨500, Body.errorMsg errMessage⟩,
        [Eff.storeSaveFile originalName mimetype size])
  else
    (⟨500, Body.errorMsg "Internal server error"⟩, [])

/-- The boundary error-handling middleware (src lines 400-404): whatever the
error was, log it and answer a fixed generic 500 body. -/
def errorMiddleware (errStack : String) : Response :=
  ⟨500, Body.errorMsg "Internal server error"⟩

/-! ## Token Service (`POST /api/login` src lines 290-298,
`authenticateToken` src lines 279-287) -/

/-- Modelled from the spec: `jwt.sign({username}, secret, {expiresIn:'1h'})`
issues a token for `username` expiring 3600 seconds after issue time `now`;
the signature is modelled by the secret the token was signed with. -/
def jwtSign (secret username : String) (now : Nat) : Token :=
  ⟨username, now + 3600, secret⟩

/-- Modelled from the spec: `jwt.verify` accepts a token iff its signature
matches the verifying secret and the current time is before its expiry. -/
def jwtVerify (secret : String) (t : Token) (now : Nat) : Bool :=
  t.secret == secret && decide (now < t.exp)

/-- The `POST /api/login` handler (src lines 290-298): exactly the fixed
pair `user`/`pass` is accepted and receives a signed one-hour token;
any other pair gets 401 "Invalid credentials". -/
def login (secret username password : String) (now : Nat) : Response :=
  if username == "user" && password == "pass" then
    ⟨200, Body.token (jwtSign secret username now)⟩
  else
    ⟨401, Body.errorMsg "Invalid credentials"⟩

/-! ## Request pipeline: rate limiter and response cache
(src lines 205-208: `app.use(rateLimit(...))` then `app.use(cache('5 minutes'))`) -/

/-- State of one client's fixed rate-limit window. -/
structure RLState where
  windowStart : Nat
  count : Nat
  deriving DecidableEq, Repr

/-- `windowMs` of `rateLimit({ windowMs: 15 * 60 * 1000, max: 100 })`
(src line 207), in milliseconds. -/
def windowMs : Nat := 15 * 60 * 1000

/-- `max` of the rate limiter (src line 207). -/
def rateMax : Nat := 100

/-- Modelled from the spec: `express-rate-limit` is external middleware
doing fixed-window counting per client.  Entering a new window resets the
counter; each request increments it; the request passes iff the incremented
count is within `rateMax`. -/
def rlStep (st : RLState) (now : Nat) : RLState × Bool :=
  let st1 := if st.windowStart + windowMs ≤ now then RLState.mk now 0 else st
  (RLState.mk st1.windowStart (st1.count + 1), decide (st1.count + 1 ≤ rateMax))

/-- One stored cache entry of the apicache middleware. -/
structure CacheEntry where
  key : String
  response : Response
  storedAt : Nat
  deriving DecidableEq, Repr

/-- The cache TTL of `cache('5 minutes')` (src line 208), in milliseconds. -/
def cacheTTL : Nat := 5 * 60 * 1000

/-- Modelled from the spec: apicache is external middleware; a stored entry
is served while the current time is before `storedAt + cacheTTL`. -/
def cacheLookup (entries : List CacheEntry) (key : String) (now : Nat) :
    Option Response :=
  match entries.find? (fun e => e.key == key) with
  | some e => if now < e.storedAt + cacheTTL then some e.response else none
  | none => none

/-- The routes the pipeline model dispatches to (the two routes the claims
exercise: the read route `GET /api/resources` and the write route
`POST /api/checkins`). -/
inductive Route where
  | resourcesRoute (cityParam : Option String)
  | checkinRoute (message phone : String)
  deriving DecidableEq, Repr

/-- The string apicache keys its entries by: `req.originalUrl` — the path
plus query string, with no method component and no request body. -/
def urlKey : Route → String
  | .resourcesRoute none => "/api/resources"
  | .resourcesRoute (some c) => "/api/resources?city=" ++ c
  | .checkinRoute _ _ => "/api/checkins"

/-- Whole-server state threaded between requests: the client's rate-limit
window, the cache entries, and the two store collections in play. -/
structure ServerState where
  rl : RLState
  cacheEntries : List CacheEntry
  resources : List Resource
  checkins : List Checkin
  deriving DecidableEq, Repr

/-- Route dispatch after the shared middleware: `GET /api/resources` is
public; `POST /api/checkins` first runs `authenticateToken`, whose combined
outcome is `authOk` (the 401 missing-token and 403 invalid-token failures
are collapsed into the 401 response since no claim distinguishes them). -/
def runRoute (r : Route) (geo : String → Nat)
    (twilioConfigured authOk saveOk smsOk : Bool) (st : ServerState) :
    Response × ServerState × List Eff :=
  match r with
  | .resourcesRoute c =>
      let h := getResources c geo st.resources
      (h.1, st, h.2)
  | .checkinRoute m p =>
      if authOk then
        let h := checkinSubmit m p twilioConfigured saveOk smsOk st.checkins
        (h.1, { st with checkins := h.2.1 }, h.2.2)
      else
        (⟨401, Body.errorMsg "Token required"⟩, st, [])

/-- One request through the middleware pipeline (src lines 205-208 plus the
routes): the rate limiter runs first; if it rejects, the request ends with
429 and nothing downstream runs.  Otherwise the apicache middleware — which
`app.use` applies to every route and every HTTP method — looks its key up:
on a fresh hit the stored response is replayed and nothing downstream runs;
on a miss the route (including authentication) runs and its response is
stored in the cache.  Returns the new server state, the response, and the
trace of downstream effects. -/
def processRequest (geo : String → Nat)
    (twilioConfigured authOk saveOk smsOk : Bool) (st : ServerState)
    (now : Nat) (r : Route) : ServerState × Response × List Eff :=
  let rlr := rlStep st.rl now
  let st1 := { st with rl := rlr.1 }
  if rlr.2 then
    match cacheLookup st1.cacheEntries (urlKey r) now with
    | some resp => (st1, resp, [])
    | none =>
        let h := runRoute r geo twilioConfigured authOk saveOk smsOk st1
        ({ h.2.1 with
            cacheEntries := h.2.1.cacheEntries ++ [CacheEntry.mk (urlKey r) h.1 now] },
          h.1, h.2.2)
  else
    (st1, ⟨429, Body.errorMsg "Too many requests, please try again later."⟩, [])

/-! ## Claims C1, C4, C5, C10: the resource resolver -/

/-- **C1.** A resource query with a (non-blank) city for which the geocoder
returns zero matches fails with 404 "City not found"; the trace contains no
store access, and the response is a constant independent of the local store
(so it is the same whether or not matching resources exist locally). -/
theorem resources_unknown_city_404 (c : String) (geo : String → Nat)
    (store : List Resource) (hc : c ≠ "") (hz : geo (c ++ ", India") = 0) :
    getResources (some c) geo store =
      (⟨404, Body.errorMsg "City not found"⟩, [Eff.geocode (c ++ ", India")]) := by
  simp [getResources, jsBlank, hc, hz]

/-- Witness for C1: city "Atlantis" with a geocoder returning no matches,
over a store that does contain an "Atlantis" resource. -/
theorem resources_unknown_city_404_witness :
    getResources (some "Atlantis") (fun _ => 0)
      [⟨"Shelter", "shelter", "addr", "123", "Atlantis"⟩] =
      (⟨404, Body.errorMsg "City not found"⟩, [Eff.geocode "Atlantis, India"]) :=
  resources_unknown_city_404 "Atlantis" (fun _ => 0)
    [⟨"Shelter", "shelter", "addr", "123", "Atlantis"⟩]
    (by decide) rfl

/-- **C4.** A resource query without a city parameter never calls the
geocoder: the result is the first 100 resources of the store, unfiltered,
and the trace holds a single store query and no geocode call. -/
theorem resources_no_city_unfiltered (geo : String → Nat)
    (store : List Resource) :
    getResources none geo store =
      (⟨200, Body.resources (store.take 100)⟩, [Eff.storeFindAll 100]) := by
  simp [getResources, jsBlank]

/-- **C10.** A city parameter that is present but equal to the empty string
is treated exactly as an absent city: same result as `none`, no geocoder
call, no 404, up to 100 unfiltered resources. -/
theorem resources_empty_city_like_absent (geo : String → Nat)
    (store : List Resource) :
    getResources (some "") geo store = getResources none geo store ∧
    getResources (some "") geo store =
      (⟨200, Body.resources (store.take 100)⟩, [Eff.storeFindAll 100]) := by
  constructor <;> simp [getResources, jsBlank]

/-- **C5.** A resource query with a (non-blank) city for which the geocoder
returns at least one match returns exactly the resources whose city field
matches the supplied city case-insensitively, capped at 50, after one
geocode call and one store query. -/
theorem resources_known_city_filtered (c : String) (geo : String → Nat)
    (store : List Resource) (hc : c ≠ "") (hz : geo (c ++ ", India") ≠ 0) :
    getResources (some c) geo store =
      (⟨200, Body.resources ((store.filter fun r => cityMatches r.city c).take 50)⟩,
        [Eff.geocode (c ++ ", India"), Eff.storeFindCity c 50]) := by
  simp [getResources, jsBlank, hc, hz]

/-- Witness for C5: city "Pune" found by the geocoder; the store has one
matching resource (different case) and one non-matching one, and only the
former is returned.  A second application with an empty store shows the
result may legitimately be empty. -/
theorem resources_known_city_filtered_witness :
    getResources (some "Pune") (fun _ => 1)
      [⟨"A", "shelter", "addr", "1", "PUNE"⟩, ⟨"B", "shelter", "addr", "2", "Delhi"⟩] =
      (⟨200, Body.resources [⟨"A", "shelter", "addr", "1", "PUNE"⟩]⟩,
        [Eff.geocode "Pune, India", Eff.storeFindCity "Pune" 50]) ∧
    getResources (some "Pune") (fun _ => 1) [] =
      (⟨200, Body.resources []⟩, [Eff.geocode "Pune, India", Eff.storeFindCity "Pune" 50]) :=
  ⟨by rw [resources_known_city_filtered "Pune" (fun _ => 1) _ (by decide) (by decide)]
      decide,
   by rw [resources_known_city_filtered "Pune" (fun _ => 1) [] (by decide) (by decide)]
      decide⟩

/-! ## Claim C3: the check-in notifier -/

/-- **C3.** In every check-in submission, an SMS dispatch appears in the
trace exactly when persistence succeeded and a gateway is configured; when
it appears, the persist effect precedes it; a successfully persisted record
stays in the store even when the SMS dispatch fails; and a failed persist
leaves the store unchanged (and, by the first part, sends no SMS). -/
theorem checkin_persist_before_notify (message phone : String)
    (tw saveOk smsOk : Bool) (store : List Checkin) :
    ((∃ b d, Eff.smsSend b d ∈ (checkinSubmit message phone tw saveOk smsOk store).2.2) ↔
      saveOk = true ∧ tw = true) ∧
    (saveOk = true → tw = true →
      (checkinSubmit message phone tw saveOk smsOk store).2.2 =
        [Eff.storeSaveCheckin ⟨message, phone⟩,
          Eff.smsSend ("Safe Bharat Check-In: " ++ message) phone]) ∧
    (saveOk = true →
      ⟨message, phone⟩ ∈ (checkinSubmit message phone tw saveOk smsOk store).2.1) ∧
    (saveOk = false →
      (checkinSubmit message phone tw saveOk smsOk store).2.1 = store) := by
  cases saveOk <;> cases tw <;> cases smsOk <;> simp [checkinSubmit]

/-- Witness for C3: gateway configured, persistence succeeds, SMS dispatch
fails — the record is in the store anyway. -/
theorem checkin_persist_before_notify_witness :
    (⟨"I am safe", "911"⟩ : Checkin) ∈
      (checkinSubmit "I am safe" "911" true true false []).2.1 :=
  (checkin_persist_before_notify "I am safe" "911" true true false []).2.2.1 rfl

/-! ## Claim C6: upload validation -/

/-- Counterexample to C6 as stated: the first revision's multer
configuration (disk storage, no `fileFilter`, no `limits`) accepts a
`text/plain` upload and persists it to disk — no rejection occurs, even
though the same MIME type fails the validating configuration's filter. -/
theorem upload_text_plain_persisted_first_config :
    diskUpload 1700000000000 "note.txt" "text/plain" 10 =
      (true, [Eff.diskWrite 1700000000000 "note.txt"]) ∧
    fileFilter "text/plain" = false :=
  ⟨rfl, by decide⟩

/-- **C6 (amended).** Through the memory-storage multer configuration (the
second revision, used by `POST /upload` and `POST /api/reports`): a file
whose declared MIME type is neither `image/*` nor `application/pdf`, or
whose size exceeds 5 MiB, is rejected with nothing persisted (empty trace);
an accepted file — e.g. a 1 MiB PNG — reaches the handler and is saved.
The first revision's disk-storage configuration performs no validation. -/
theorem upload_validation_memory_config (originalName mimetype : String)
    (size : Nat) (saveOk : Bool) (errMessage : String) :
    (fileFilter mimetype = false →
      uploadRoute originalName mimetype size saveOk errMessage =
        (⟨500, Body.errorMsg "Internal server error"⟩, [])) ∧
    (fileSizeLimit < size →
      uploadRoute originalName mimetype size saveOk errMessage =
        (⟨500, Body.errorMsg "Internal server error"⟩, [])) ∧
    (fileFilter mimetype = true → size ≤ fileSizeLimit → saveOk = true →
      uploadRoute originalName mimetype size saveOk errMessage =
        (⟨200, Body.msg "File metadata saved!"⟩,
          [Eff.storeSaveFile originalName mimetype size])) := by
  refine ⟨?_, ?_, ?_⟩
  · intro h
    simp [uploadRoute, memoryUploadAccepts, h]
  · intro h
    have h2 : ¬ size ≤ fileSizeLimit := not_le.mpr h
    simp [uploadRoute, memoryUploadAccepts, h2]
  · intro h1 h2 h3
    simp [uploadRoute, memoryUploadAccepts, h1, h2, h3]

/-- Witness for the amended C6: a 1 MiB PNG is accepted and saved; a
`text/plain` file and a 6 MiB PNG are rejected with nothing persisted. -/
theorem upload_validation_memory_config_witness :
    uploadRoute "photo.png" "image/png" (1024 * 1024) true "" =
      (⟨200, Body.msg "File metadata saved!"⟩,
        [Eff.storeSaveFile "photo.png" "image/png" (1024 * 1024)]) ∧
    uploadRoute "notes.txt" "text/plain" 10 true "" =
      (⟨500, Body.errorMsg "Internal server error"⟩, []) ∧
    uploadRoute "big.png" "image/png" (6 * 1024 * 1024) true "" =
      (⟨500, Body.errorMsg "Internal server error"⟩, []) :=
  ⟨(upload_validation_memory_config "photo.png" "image/png" (1024 * 1024) true "").2.2
      (by decide) (by decide) rfl,
   (upload_validation_memory_config "notes.txt" "text/plain" 10 true "").1 (by decide),
   (upload_validation_memory_config "big.png" "image/png" (6 * 1024 * 1024) true "").2.1
      (by decide)⟩

/-! ## Claim C7: generic 500 responses -/

/-- Counterexample to C7 as stated: when `File.save` throws inside
`POST /upload`, the route's catch sends the exception's own message in the
500 body — internal detail reaches the client, and the body is neither of
the generic strings. -/
theorem upload_500_leaks_error_message :
    uploadRoute "photo.png" "image/png" 4096 false
        "MongoNetworkError: connect ECONNREFUSED" =
      (⟨500, Body.errorMsg "MongoNetworkError: connect ECONNREFUSED"⟩,
        [Eff.storeSaveFile "photo.png" "image/png" 4096]) ∧
    "MongoNetworkError: connect ECONNREFUSED" ≠ "Internal server error" ∧
    "MongoNetworkError: connect ECONNREFUSED" ≠ "Server error" :=
  ⟨by decide, by decide, by decide⟩

/-- **C7 (amended).** The boundary error middleware always answers the fixed
generic body "Internal server error"; the check-in route's own 500s always
carry the fixed generic body "Server error"; but the `POST /upload` catch
answers 500 with the exception's message itself, so that route can leak
internal detail. -/
theorem generic_500_except_upload (errStack m p : String)
    (tw saveOk smsOk : Bool) (store : List Checkin)
    (originalName mimetype errMessage : String) (size : Nat) :
    errorMiddleware errStack = ⟨500, Body.errorMsg "Internal server error"⟩ ∧
    ((checkinSubmit m p tw saveOk smsOk store).1.status = 500 →
      (checkinSubmit m p tw saveOk smsOk store).1.body =
        Body.errorMsg "Server error") ∧
    (memoryUploadAccepts mimetype size = true →
      uploadRoute originalName mimetype size false errMessage =
        (⟨500, Body.errorMsg errMessage⟩,
          [Eff.storeSaveFile originalName mimetype size])) := by
  refine ⟨rfl, ?_, ?_⟩
  · cases saveOk <;> cases tw <;> cases smsOk <;> simp [checkinSubmit]
  · intro h
    simp [uploadRoute, h]

/-- Witness for the amended C7: a concrete store failure inside
`POST /upload` whose message is echoed in the 500 body. -/
theorem generic_500_except_upload_witness :
    uploadRoute "a.pdf" "application/pdf" 1 false "ValidationError: size required" =
      (⟨500, Body.errorMsg "ValidationError: size required"⟩,
        [Eff.storeSaveFile "a.pdf" "application/pdf" 1]) :=
  (generic_500_except_upload "" "m" "p" false false false [] "a.pdf"
    "application/pdf" "ValidationError: size required" 1).2.2 (by decide)

/-! ## Claim C9: the token service -/

/-- **C9.** Login with the fixed pair `user`/`pass` returns a token that
verification accepts immediately and rejects once the one-hour expiry has
elapsed; any other credential pair is answered 401 "Invalid credentials". -/
theorem login_token_lifecycle (secret : String) (now : Nat) :
    login secret "user" "pass" now =
      ⟨200, Body.token (jwtSign secret "user" now)⟩ ∧
    jwtVerify secret (jwtSign secret "user" now) now = true ∧
    (∀ later, now + 3600 ≤ later →
      jwtVerify secret (jwtSign secret "user" now) later = false) ∧
    (∀ u p, ¬(u = "user" ∧ p = "pass") →
      login secret u p now = ⟨401, Body.errorMsg "Invalid credentials"⟩) := by
  refine ⟨by simp [login], ?_, ?_, ?_⟩
  · simp [jwtVerify, jwtSign]
  · intro later h
    simp only [jwtVerify, jwtSign, beq_self_eq_true, Bool.true_and,
      decide_eq_false_iff_not]
    omega
  · intro u p h
    by_cases hu : u = "user"
    · by_cases hp : p = "pass"
      · exact absurd ⟨hu, hp⟩ h
      · simp [login, hu, hp]
    · simp [login, hu]

/-- Witness for C9: a token issued at time 0 with the default secret is
rejected at time 3600 (one hour elapsed), and the pair `guest`/`pass` is
rejected. -/
theorem login_token_lifecycle_witness :
    jwtVerify "safebharatsecret" (jwtSign "safebharatsecret" "user" 0) 3600 = false ∧
    login "safebharatsecret" "guest" "pass" 0 =
      ⟨401, Body.errorMsg "Invalid credentials"⟩ :=
  ⟨(login_token_lifecycle "safebharatsecret" 0).2.2.1 3600 (by decide),
   (login_token_lifecycle "safebharatsecret" 0).2.2.2 "guest" "pass" (by decide)⟩

/-! ## Claim C2: the response cache -/

/-- Counterexample to C2 as stated: the cache middleware, mounted by
`app.use`, also wraps the write route `POST /api/checkins`.  A first
check-in is persisted and its 201 response cached under the URL key; a
second, different check-in 60 s later (same client, authenticated, window
open) is replayed the first one's response verbatim: its handler never runs
(empty trace) and the second record is never persisted. -/
theorem cache_wraps_write_route :
    processRequest (fun _ => 0) false true true true
      (processRequest (fun _ => 0) false true true true
        ⟨⟨0, 0⟩, [], [], []⟩ 0 (Route.checkinRoute "I am safe" "111")).1
      60000 (Route.checkinRoute "Need help" "222") =
    (⟨⟨0, 2⟩,
        [⟨"/api/checkins", ⟨201, Body.checkin ⟨"I am safe", "111"⟩⟩, 0⟩],
        [], [⟨"I am safe", "111"⟩]⟩,
      ⟨201, Body.checkin ⟨"I am safe", "111"⟩⟩, []) := by
  decide

/-- **C2 (amended).** The cache middleware is applied to every route, writes
included.  On any cache hit within the TTL of a rate-allowed request, the
stored response is replayed verbatim, the route handler does not execute,
and no handler side effect occurs: the effect trace is empty and the server
state is untouched apart from the rate-limit counter. -/
theorem cache_hit_replays_without_side_effects (geo : String → Nat)
    (tw authOk saveOk smsOk : Bool) (st : ServerState) (now : Nat) (r : Route)
    (resp : Response)
    (hallow : (rlStep st.rl now).2 = true)
    (hhit : cacheLookup st.cacheEntries (urlKey r) now = some resp) :
    processRequest geo tw authOk saveOk smsOk st now r =
      ({ st with rl := (rlStep st.rl now).1 }, resp, []) := by
  simp [processRequest, hallow, hhit]

/-- Witness for the amended C2: a fresh cached entry for `GET /api/resources`
is replayed one second later with no downstream effects. -/
theorem cache_hit_replays_without_side_effects_witness :
    processRequest (fun _ => 0) false true true true
      ⟨⟨0, 0⟩, [⟨"/api/resources", ⟨200, Body.resources []⟩, 0⟩], [], []⟩
      1000 (Route.resourcesRoute none) =
      (⟨⟨0, 1⟩, [⟨"/api/resources", ⟨200, Body.resources []⟩, 0⟩], [], []⟩,
        ⟨200, Body.resources []⟩, []) :=
  cache_hit_replays_without_side_effects (fun _ => 0) false true true true
    ⟨⟨0, 0⟩, [⟨"/api/resources", ⟨200, Body.resources []⟩, 0⟩], [], []⟩
    1000 (Route.resourcesRoute none) ⟨200, Body.resources []⟩
    (by decide) (by decide)

/-! ## Claim C8: the rate limiter -/

/-- **C8.** Within one fixed window each request increments the client's
counter by one; a request arriving while the counter already reached the
ceiling of 100 is answered 429 with an empty effect trace — the route
handler never runs and only the counter changes; and a request arriving
after the window has rolled over passes the limiter again. -/
theorem rate_limit_window_behaviour (geo : String → Nat)
    (tw authOk saveOk smsOk : Bool) (st : ServerState) (now : Nat) (r : Route) :
    (now < st.rl.windowStart + windowMs →
      (rlStep st.rl now).1 = ⟨st.rl.windowStart, st.rl.count + 1⟩) ∧
    (now < st.rl.windowStart + windowMs → rateMax ≤ st.rl.count →
      processRequest geo tw authOk saveOk smsOk st now r =
        ({ st with rl := ⟨st.rl.windowStart, st.rl.count + 1⟩ },
          ⟨429, Body.errorMsg "Too many requests, please try again later."⟩, [])) ∧
    (st.rl.windowStart + windowMs ≤ now → (rlStep st.rl now).2 = true) := by
  refine ⟨?_, ?_, ?_⟩
  · intro h
    simp [rlStep, not_le.mpr h]
  · intro h hc
    have h1 : ¬ (st.rl.windowStart + windowMs ≤ now) := not_le.mpr h
    have h2 : ¬ (st.rl.count + 1 ≤ rateMax) := by
      simp only [rateMax] at hc ⊢
      omega
    simp [processRequest, rlStep, h1, h2]
  · intro h
    simp [rlStep, h, rateMax]

/-- Witness for C8: a client whose window counter already stands at 100 gets
429 with no downstream effects, and passes again at the next window. -/
theorem rate_limit_window_behaviour_witness :
    processRequest (fun _ => 0) false true true true
      ⟨⟨0, 100⟩, [], [], []⟩ 5 (Route.resourcesRoute none) =
      (⟨⟨0, 101⟩, [], [], []⟩,
        ⟨429, Body.errorMsg "Too many requests, please try again later."⟩, []) ∧
    (rlStep ⟨0, 100⟩ 900000).2 = true :=
  ⟨(rate_limit_window_behaviour (fun _ => 0) false true true true
      ⟨⟨0, 100⟩, [], [], []⟩ 5 (Route.resourcesRoute none)).2.1
      (by decide) (by decide),
   (rate_limit_window_behaviour (fun _ => 0) false true true true
      ⟨⟨0, 100⟩, [], [], []⟩ 900000 (Route.resourcesRoute none)).2.2
      (by decide)⟩

end SafeBharat
